import Mathlib

/-!
Verification of the GitHub data-aggregation proxy layer of a portfolio
website.  The embedding covers the GraphQL transport
(src/lib/github/client.ts: retryRequest, fetchGitHubGraphQL), the
statistics route (src/app/api/github/stats/route.ts) and the
repository-listing route (the repos route handler).  TypeScript optional
fields become Option, JS falsy-defaulting (x || 0) becomes Option.getD,
and the fallible transport returns Except.
-/

namespace Portfolio

/-! String constants appearing in the source. -/

def emptyStr : String := ""

def commaSep : String := ", "

def commaStr : String := ","

def spaceStr : String := " "

def defaultLimitStr : String := "10"

def tokenRequiredMsg : String := "GitHub token is required"

def rateLimitHead : String := "GitHub API rate limit exceeded: "

def apiErrHead : String := "GitHub API error: "

def maxRetriesMsg : String := "Max retries exceeded"

def gqlErrorsHead : String := "GraphQL errors: "

def noDataMsg : String := "No data returned from GitHub API"

/-! ## GraphQL transport (src/lib/github/client.ts) -/

/-- One element of the GraphQL-level errors array (interface GraphQLResponse). -/
structure GQLErr where
  message : String
  type : String
  deriving DecidableEq

/-- interface GraphQLResponse of client.ts: both fields are optional. -/
structure GraphQLPayload (T : Type) where
  data : Option T
  errors : Option (List GQLErr)
  deriving DecidableEq

/-- The parts of a Fetch-API Response the client inspects: status,
statusText, and the JSON body.  bodyText stands for the stringified body
used in the 403 error message; payload is the parsed GraphQLResponse used
on the success path. -/
structure JsResponse (T : Type) where
  status : Nat
  statusText : String
  bodyText : String
  payload : GraphQLPayload T
  deriving DecidableEq

/-- Response.ok of the Fetch API: status in the range 200-299. -/
def respOk {T : Type} (r : JsResponse T) : Bool :=
  200 ≤ r.status && r.status ≤ 299

/-- One invocation of requestFn: either the returned Response, or a thrown
network error. -/
inductive Attempt (T : Type) where
  | netErr (msg : String)
  | resp (r : JsResponse T)

/-- Observable outcome of retryRequest: the value returned or error thrown,
how many times requestFn was invoked, and the sleep durations between
attempts (in ms, in order). -/
structure RetryOutcome (T : Type) where
  result : Except String (JsResponse T)
  requestCount : Nat
  delays : List Nat

/-- Account for one consumed attempt followed by a sleep of d ms before the
remaining attempts. -/
def retryStep {T : Type} (rest : RetryOutcome T) (d : Nat) : RetryOutcome T :=
  ⟨rest.result, rest.requestCount + 1, d :: rest.delays⟩

/-- Loop body of retryRequest (client.ts lines 22-47), iteration index i,
with the remaining number of loop iterations as the structural fuel
(the for-loop runs maxRetries iterations in total).  Faithful to the JS
control flow: a thrown error (network failure, the 403 rate-limit throw,
or the generic status throw) reaches the catch block, which rethrows on
the last iteration (i === maxRetries - 1) and otherwise sleeps
delay * (i + 1) and retries; a 5xx status on a non-final iteration sleeps
and retries without throwing. -/
def retryLoop {T : Type} (req : Nat → Attempt T) (maxRetries delay i : Nat) :
    Nat → RetryOutcome T
  | 0 => ⟨.error maxRetriesMsg, 0, []⟩
  | fuel + 1 =>
    match req i with
    | .netErr msg =>
      if i = maxRetries - 1 then ⟨.error msg, 1, []⟩
      else retryStep (retryLoop req maxRetries delay (i + 1) fuel) (delay * (i + 1))
    | .resp r =>
      if respOk r then ⟨.ok r, 1, []⟩
      else if r.status = 403 then
        if i = maxRetries - 1 then ⟨.error (rateLimitHead ++ r.bodyText), 1, []⟩
        else retryStep (retryLoop req maxRetries delay (i + 1) fuel) (delay * (i + 1))
      else if 500 ≤ r.status ∧ i < maxRetries - 1 then
        retryStep (retryLoop req maxRetries delay (i + 1) fuel) (delay * (i + 1))
      else
        if i = maxRetries - 1 then
          ⟨.error (apiErrHead ++ toString r.status ++ spaceStr ++ r.statusText), 1, []⟩
        else retryStep (retryLoop req maxRetries delay (i + 1) fuel) (delay * (i + 1))

/-- retryRequest of client.ts: runs the loop from i = 0 for maxRetries
iterations; falling out of the loop throws the max-retries error. -/
def retryRequest {T : Type} (req : Nat → Attempt T) (maxRetries delay : Nat) :
    RetryOutcome T :=
  retryLoop req maxRetries delay 0 maxRetries

/-- The condition data.errors && data.errors.length > 0 of client.ts. -/
def errCheck {T : Type} (p : GraphQLPayload T) : Bool :=
  match p.errors with
  | some es => 0 < es.length
  | none => false

/-- fetchGitHubGraphQL of client.ts.  The token is absent (undefined) or a
string; an empty string is falsy in JS, so both fail the token check.  The
upstream interaction is abstracted as the sequence of attempt outcomes. -/
def fetchGitHubGraphQL {T : Type} (req : Nat → Attempt T) (token : Option String) :
    Except String T :=
  if (token.getD emptyStr) = emptyStr then .error tokenRequiredMsg
  else
    match (retryRequest req 3 1000).result with
    | .error e => .error e
    | .ok r =>
      if errCheck r.payload then
        .error (gqlErrorsHead ++
          String.intercalate commaSep ((r.payload.errors.getD []).map GQLErr.message))
      else
        match r.payload.data with
        | none => .error noDataMsg
        | some d => .ok d

/-! ## Repository nodes of the GraphQL response (repos route handler) -/

/-- A language descriptor (name + display color). -/
structure LangNode where
  name : String
  color : String
  deriving DecidableEq

/-- One edge of the languages connection: byte size plus the language. -/
structure LangEdge where
  size : Nat
  node : LangNode
  deriving DecidableEq

/-- The languages connection of a repository node. -/
structure Languages where
  totalSize : Nat
  edges : List LangEdge
  deriving DecidableEq

/-- stargazers wrapper: the inner totalCount is optional upstream. -/
structure Stargazers where
  totalCount : Option Nat
  deriving DecidableEq

/-- history wrapper of the default-branch commit target. -/
structure HistoryInfo where
  totalCount : Option Nat
  deriving DecidableEq

/-- target wrapper of defaultBranchRef. -/
structure CommitTarget where
  history : Option HistoryInfo
  deriving DecidableEq

/-- defaultBranchRef wrapper of a repository node. -/
structure BranchRef where
  target : Option CommitTarget
  deriving DecidableEq

/-- A raw repository node as typed inline in the repos route handler:
every field that is optional or nullable in TypeScript is an Option. -/
structure RepoNode where
  id : String
  name : String
  nameWithOwner : String
  description : Option String
  url : String
  homepageUrl : Option String
  stargazers : Option Stargazers
  forkCount : Option Nat
  isPrivate : Bool
  isArchived : Bool
  isTemplate : Bool
  primaryLanguage : Option LangNode
  updatedAt : String
  createdAt : String
  pushedAt : String
  languages : Option Languages
  defaultBranchRef : Option BranchRef
  deriving DecidableEq

/-- One page of the repository-listing query as the loop observes it:
data.user?.repositories?.nodes || [], plus the pageInfo fields after their
falsy-defaulting (hasNextPage || false, endCursor || null).  A response
with no user corresponds to the page ⟨[], false, none⟩. -/
structure Page where
  nodes : List RepoNode
  hasNextPage : Bool
  endCursor : Option String
  deriving DecidableEq

/-- The pagination loop of the repos route (while hasNextPage and
allRepos.length < 100): acc accumulates nodes, b is the current
hasNextPage flag (initially true), and the list supplies one page per
fetch.  Exhausting the page list stands for a response with no user,
which yields no nodes and a false hasNextPage, ending the loop. -/
def reposLoop : List Page → List RepoNode → Bool → List RepoNode
  | _, acc, false => acc
  | [], acc, true => acc
  | p :: rest, acc, true =>
    if acc.length < 100 then reposLoop rest (acc ++ p.nodes) p.hasNextPage
    else acc

/-- The accumulated allRepos at the end of the pagination loop. -/
def fetchAllRepos (pages : List Page) : List RepoNode :=
  reposLoop pages [] true

/-- The privacy filter predicate of the repos route. -/
def keepPublic (r : RepoNode) : Bool :=
  !r.isPrivate && !r.isArchived && !r.isTemplate

/-- Filter out private, archived, and template repositories. -/
def filterPublic (rs : List RepoNode) : List RepoNode :=
  rs.filter keepPublic

/-- Whether pat occurs as a contiguous run of cs. -/
def containsSub (pat : List Char) : List Char → Bool
  | [] => pat.isEmpty
  | c :: cs => pat.isPrefixOf (c :: cs) || containsSub pat cs

/-- JS String.prototype.includes: substring containment (the empty pattern
is contained in every string, as in JS). -/
def strIncludes (s pat : String) : Bool :=
  containsSub pat.toList s.toList

/-- JS String.prototype.toLowerCase, per character (the repository names
and featured fragments involved are ASCII). -/
def strToLower (s : String) : String :=
  ⟨s.data.map Char.toLower⟩

/-- featured.some(name => repo.name.toLowerCase().includes(name.toLowerCase())). -/
def matchesFeatured (featured : List String) (r : RepoNode) : Bool :=
  featured.any (fun n => strIncludes (strToLower r.name) (strToLower n))

/-- The featured-first concatenation: when the featured list is non-empty,
repos matching a fragment come first, each partition keeping its order. -/
def featuredArrange (featured : List String) (rs : List RepoNode) : List RepoNode :=
  if 0 < featured.length then
    rs.filter (matchesFeatured featured) ++
      rs.filter (fun r => !matchesFeatured featured r)
  else rs

/-- repo.stargazers?.totalCount || 0. -/
def starsOf (r : RepoNode) : Nat :=
  (r.stargazers.bind Stargazers.totalCount).getD 0

/-- The order induced by the comparator (b.stars || 0) - (a.stars || 0):
a sorts no later than b exactly when b has no more stars than a. -/
def starsGe (a b : RepoNode) : Prop :=
  starsOf b ≤ starsOf a

instance : DecidableRel starsGe := fun a b => Nat.decLe (starsOf b) (starsOf a)

instance : IsTotal RepoNode starsGe :=
  ⟨fun a b => (Nat.le_total (starsOf b) (starsOf a)).imp id id⟩

instance : IsTrans RepoNode starsGe :=
  ⟨fun _ _ _ h1 h2 => Nat.le_trans h2 h1⟩

/-- publicRepos.sort((a, b) => (b.stargazers?.totalCount || 0) -
(a.stargazers?.totalCount || 0)).  Array.prototype.sort is stable
(ES2019), and every stable sort by a total preorder produces the same
sequence, here realised by insertion sort. -/
def sortByStars (rs : List RepoNode) : List RepoNode :=
  List.insertionSort starsGe rs

/-- arr.slice(0, lim) for a JS number lim: NaN (none) clamps to 0, a
negative end counts from the end of the array. -/
def jsSlice {α : Type} (l : List α) (lim : Option Int) : List α :=
  match lim with
  | none => []
  | some k => if 0 ≤ k then l.take k.toNat else l.take (l.length - (-k).toNat)

/-- The whitespace skipped by JS parseInt. -/
def jsWhitespace (c : Char) : Bool :=
  c = ' ' || c = '\t' || c = '\n' || c = '\r' || c = '\x0b' || c = '\x0c'

/-- Value of a list of decimal digits. -/
def digitsVal (cs : List Char) : Nat :=
  cs.foldl (fun n c => n * 10 + (c.toNat - 48)) 0

/-- parseInt(s, 10): skip leading whitespace, read an optional sign, then
the longest prefix of decimal digits; NaN (none) when there is none. -/
def parseIntJS (s : String) : Option Int :=
  let cs := s.toList.dropWhile jsWhitespace
  let sign : Int := if cs.head? = some '-' then -1 else 1
  let cs2 := if cs.head? = some '-' || cs.head? = some '+' then cs.tail else cs
  let digs := cs2.takeWhile Char.isDigit
  if digs.isEmpty then none else some (sign * (digitsVal digs : Nat))

/-- JS String.prototype.split on a one-character separator: the empty
string yields a single empty fragment, adjacent separators yield empty
fragments. -/
def splitOnChar (sep : Char) : List Char → List (List Char)
  | [] => [[]]
  | c :: cs =>
    match splitOnChar sep cs, decide (c = sep) with
    | r, true => [] :: r
    | [], false => [[c]]
    | g :: gs, false => (c :: g) :: gs

/-- s.split(','). -/
def splitCommas (s : String) : List String :=
  (splitOnChar ',' s.data).map String.mk

/-- searchParams.get('featured')?.split(',').filter(Boolean) || []:
absent gives [], otherwise split on commas and drop empty fragments
(the only falsy strings). -/
def parseFeatured (fp : Option String) : List String :=
  match fp with
  | none => []
  | some s => (splitCommas s).filter (fun x => x != emptyStr)

/-- parseInt(searchParams.get('limit') || '10', 10): an absent or empty
(falsy) parameter falls back to the default string before parsing. -/
def parseLimit (lp : Option String) : Option Int :=
  parseIntJS (match lp with
    | none => defaultLimitStr
    | some s => if s = emptyStr then defaultLimitStr else s)

/-! ## Normalized output (interface GitHubRepository of types.ts) -/

/-- Innermost wrapper of the normalized commit-history count. -/
structure NormHistory where
  totalCount : Nat
  deriving DecidableEq

/-- target wrapper of the normalized defaultBranchRef. -/
structure NormTarget where
  history : NormHistory
  deriving DecidableEq

/-- The normalized defaultBranchRef wrapper. -/
structure NormBranchRef where
  target : NormTarget
  deriving DecidableEq

/-- interface GitHubRepository of types.ts: all counters are required. -/
structure GitHubRepository where
  id : String
  name : String
  nameWithOwner : String
  description : Option String
  url : String
  homepageUrl : Option String
  stargazerCount : Nat
  forkCount : Nat
  isPrivate : Bool
  isArchived : Bool
  isTemplate : Bool
  primaryLanguage : Option LangNode
  updatedAt : String
  createdAt : String
  pushedAt : String
  languages : Languages
  defaultBranchRef : Option NormBranchRef
  deriving DecidableEq

/-- The optional chain repo.defaultBranchRef?.target?.history?.totalCount. -/
def chainCount (r : RepoNode) : Option Nat :=
  ((r.defaultBranchRef.bind BranchRef.target).bind CommitTarget.history).bind
    HistoryInfo.totalCount

/-- The default { totalSize: 0, edges: [] } used when languages is absent. -/
def emptyLanguages : Languages :=
  ⟨0, []⟩

/-- typeof totalCount === 'number' ? { target: { history: { totalCount } } } : null. -/
def normBranch (r : RepoNode) : Option NormBranchRef :=
  match chainCount r with
  | some n => some ⟨⟨⟨n⟩⟩⟩
  | none => none

/-- The per-repository mapping of the repos route (fields in source order):
?? null keeps the Option, || 0 and the languages default become getD. -/
def normalizeRepo (r : RepoNode) : GitHubRepository :=
  ⟨r.id, r.name, r.nameWithOwner, r.description, r.url, r.homepageUrl,
    starsOf r, r.forkCount.getD 0, r.isPrivate, r.isArchived, r.isTemplate,
    r.primaryLanguage, r.updatedAt, r.createdAt, r.pushedAt,
    r.languages.getD emptyLanguages, normBranch r⟩

/-- The repos route handler after the token check, as a function of the
upstream pages and the two query parameters: paginate, filter, arrange
featured-first, sort by stars, truncate to the limit, normalize. -/
def reposGET (pages : List Page) (fp lp : Option String) : List GitHubRepository :=
  (jsSlice
    (sortByStars (featuredArrange (parseFeatured fp) (filterPublic (fetchAllRepos pages))))
    (parseLimit lp)).map normalizeRepo

/-! ## Statistics route (src/app/api/github/stats/route.ts) -/

/-- A repository node as the stats response types it: only the optional
stargazers wrapper is consumed. -/
structure StatsRepoNode where
  stargazers : Option Stargazers
  deriving DecidableEq

/-- A totalCount wrapper whose inner count may be absent. -/
structure CountField where
  totalCount : Option Nat
  deriving DecidableEq

/-- The commits contributions wrapper. -/
structure CommitsField where
  totalCommitContributions : Option Nat
  deriving DecidableEq

/-- The reviews contributions wrapper. -/
structure ReviewsField where
  totalPullRequestReviewContributions : Option Nat
  deriving DecidableEq

/-- The repositories connection of the stats response: totalCount and
nodes are required by the GitHubGraphQLUserStats interface. -/
structure ReposField where
  totalCount : Nat
  nodes : List StatsRepoNode
  deriving DecidableEq

/-- interface GitHubGraphQLUserStats of types.ts. -/
structure UserStatsData where
  name : Option String
  login : String
  avatarUrl : String
  repositories : ReposField
  commits : Option CommitsField
  pullRequests : Option CountField
  mergedPullRequests : Option CountField
  reviews : Option ReviewsField
  openIssues : Option CountField
  closedIssues : Option CountField
  repositoriesContributedTo : Option CountField
  followers : Option CountField
  following : Option CountField
  deriving DecidableEq

/-- interface GitHubStats of types.ts. -/
structure GitHubStats where
  name : String
  login : String
  avatarUrl : String
  totalRepos : Nat
  totalStars : Nat
  totalCommits : Nat
  totalPRs : Nat
  totalPRsMerged : Nat
  totalReviews : Nat
  totalIssues : Nat
  contributedTo : Nat
  followers : Nat
  following : Nat
  deriving DecidableEq

/-- repo.stargazers?.totalCount || 0 for a stats repository node. -/
def starsOfStats (repo : StatsRepoNode) : Nat :=
  (repo.stargazers.bind Stargazers.totalCount).getD 0

/-- The stats route handler after the token and user checks: the reduce
over repository nodes and the per-field defaulting of GitHubStats
(user.name || user.login treats an empty name as falsy). -/
def statsGET (user : UserStatsData) : GitHubStats :=
  let totalStars := user.repositories.nodes.foldl (fun sum repo => sum + starsOfStats repo) 0
  ⟨(match user.name with
      | some n => if n = emptyStr then user.login else n
      | none => user.login),
    user.login,
    user.avatarUrl,
    user.repositories.totalCount,
    totalStars,
    (user.commits.bind CommitsField.totalCommitContributions).getD 0,
    (user.pullRequests.bind CountField.totalCount).getD 0,
    (user.mergedPullRequests.bind CountField.totalCount).getD 0,
    (user.reviews.bind ReviewsField.totalPullRequestReviewContributions).getD 0,
    (user.openIssues.bind CountField.totalCount).getD 0 +
      (user.closedIssues.bind CountField.totalCount).getD 0,
    (user.repositoriesContributedTo.bind CountField.totalCount).getD 0,
    (user.followers.bind CountField.totalCount).getD 0,
    (user.following.bind CountField.totalCount).getD 0⟩

/-- Whether consecutive language edges have non-increasing sizes. -/
def sizesDesc : List LangEdge → Bool
  | [] => true
  | [_] => true
  | a :: b :: t => decide (b.size ≤ a.size) && sizesDesc (b :: t)

/-- The language-breakdown invariant of a RepositorySummary: at most 10
entries, sizes in descending order. -/
def langOkB (L : Languages) : Bool :=
  decide (L.edges.length ≤ 10) && sizesDesc L.edges

/-- The invariant lifted to the optional upstream field. -/
def langOkOpt : Option Languages → Bool
  | none => true
  | some L => langOkB L

/-! ## Concrete inputs used by witnesses and counterexamples -/

def okText : String := "OK"

def forbiddenText : String := "Forbidden"

def notFoundText : String := "Not Found"

def serverErrText : String := "Internal Server Error"

def rlBody : String := "API rate limit exceeded for user"

def tokStr : String := "ghp-token"

def fooStr : String := "foo"

def threeStr : String := "3"

def abcStr : String := "abc"

def nameFooOne : String := "foo-one"

def nameFooTwo : String := "foo-two"

def nameBar : String := "barproj"

def langCol : String := "col"

def tsName : String := "TypeScript"

def goName : String := "Go"

/-- A payload that carries data and no errors. -/
def unitPayload : GraphQLPayload Unit :=
  ⟨some (), none⟩

def resp200 : JsResponse Unit :=
  ⟨200, okText, emptyStr, unitPayload⟩

def resp403 : JsResponse Unit :=
  ⟨403, forbiddenText, rlBody, unitPayload⟩

def resp404 : JsResponse Unit :=
  ⟨404, notFoundText, emptyStr, unitPayload⟩

def resp500 : JsResponse Unit :=
  ⟨500, serverErrText, emptyStr, unitPayload⟩

/-- Attempt sequence: first request is met by HTTP 403, any further one by
HTTP 200. -/
def req403then200 : Nat → Attempt Unit :=
  fun i => if i = 0 then .resp resp403 else .resp resp200

/-- Attempt sequence: the first two requests are met by HTTP 500, the
third by HTTP 200. -/
def req500x2 : Nat → Attempt Unit :=
  fun i => if i ≤ 1 then .resp resp500 else .resp resp200

/-- Attempt sequence: first request is met by HTTP 404, any further one by
HTTP 200. -/
def req404then200 : Nat → Attempt Unit :=
  fun i => if i = 0 then .resp resp404 else .resp resp200

/-- A payload over Nat carrying data 5 and no errors, and a request
sequence answering immediately with it. -/
def natPayload : GraphQLPayload Nat :=
  ⟨some 5, none⟩

def respNat : JsResponse Nat :=
  ⟨200, okText, emptyStr, natPayload⟩

def reqNat : Nat → Attempt Nat :=
  fun _ => .resp respNat

/-- A repository node with the given name and star count, public and
otherwise bare. -/
def mkNode (nm : String) (stars : Nat) : RepoNode :=
  ⟨nm, nm, nm, none, nm, none, some ⟨some stars⟩, none, false, false, false,
    none, nm, nm, nm, none, none⟩

/-- A node with every optional field absent. -/
def bareNode : RepoNode :=
  ⟨nameBar, nameBar, nameBar, none, nameBar, none, none, none, false, false,
    false, none, nameBar, nameBar, nameBar, none, none⟩

def repoA : RepoNode := mkNode nameFooOne 1

def repoB : RepoNode := mkNode nameBar 10

def repoC : RepoNode := mkNode nameFooTwo 2

/-- The P5 scenario: one page holding A (featured, 1 star), B (10 stars),
C (featured, 2 stars). -/
def c1pages : List Page :=
  [⟨[repoA, repoB, repoC], false, none⟩]

/-- Two pages that both report hasNextPage: 99 nodes, then 2 nodes. -/
def c3pages : List Page :=
  [⟨List.replicate 99 (mkNode nameBar 0), true, none⟩,
    ⟨[repoA, repoC], true, none⟩]

/-- A single page with one public repository. -/
def c4pages : List Page :=
  [⟨[repoB], false, none⟩]

/-- A node carrying a two-entry descending language breakdown. -/
def langNodeEx : RepoNode :=
  ⟨nameBar, nameBar, nameBar, none, nameBar, none, some ⟨some 4⟩, none, false,
    false, false, none, nameBar, nameBar, nameBar,
    some ⟨5, [⟨3, ⟨tsName, langCol⟩⟩, ⟨1, ⟨goName, langCol⟩⟩]⟩, none⟩

/-- A single page holding the language example node. -/
def c9pages : List Page :=
  [⟨[langNodeEx], false, none⟩]

/-- A stats user whose repositories have stars 3, 0 (absent wrapper), 7. -/
def statsUserEx : UserStatsData :=
  ⟨none, nameBar, nameBar, ⟨3, [⟨some ⟨some 3⟩⟩, ⟨none⟩, ⟨some ⟨some 7⟩⟩]⟩,
    none, none, none, none, none, none, none, none, none⟩

/-! ## Theorems -/

/-- A loop iteration whose request is answered by an HTTP-successful
response returns that response without further attempts. -/
theorem retryLoop_first_ok {T : Type} (req : Nat → Attempt T) (m d i fuel : Nat)
    (r : JsResponse T) (hreq : req i = .resp r) (hok : respOk r = true) :
    retryLoop req m d i (fuel + 1) = ⟨.ok r, 1, []⟩ := by
  unfold retryLoop
  rw [hreq]
  simp [hok]

/-- Claim C2: the spec says an HTTP 403 fails immediately with the
rate-limit error and never issues a second request.  The code instead
throws the rate-limit error inside the try block, whose catch-all handler
retries every error before the final attempt: after a first-attempt 403
the transport sleeps, issues a second request, and here returns the
second attempt's HTTP 200 response, having consumed two request slots. -/
theorem retry403_issues_second_request :
    (retryRequest req403then200 3 1000).result = .ok resp200 ∧
    (retryRequest req403then200 3 1000).requestCount = 2 ∧
    (retryRequest req403then200 3 1000).delays = [1000] :=
  ⟨rfl, rfl, rfl⟩

/-- Claim C5: at most 3 attempts with linearly increasing delays, and two
HTTP 500s followed by a success return the success (both hold); but the
claim that only HTTP 5xx or network failures are retried is false: a
first-attempt HTTP 404 is also retried (its thrown error is caught by the
catch-all handler), and the call returns the second attempt's success. -/
theorem retry_behavior_eval :
    (retryRequest req500x2 3 1000).result = .ok resp200 ∧
    (retryRequest req500x2 3 1000).requestCount = 3 ∧
    (retryRequest req500x2 3 1000).delays = [1000, 2000] ∧
    (retryRequest req404then200 3 1000).result = .ok resp200 ∧
    (retryRequest req404then200 3 1000).requestCount = 2 :=
  ⟨rfl, rfl, rfl, rfl, rfl⟩

/-- Claim C7: on an HTTP-successful response, a non-empty GraphQL errors
array fails the call with all messages joined (even when data is present);
a payload passing the errors check but lacking data fails with the
no-data error; otherwise the data value is returned. -/
theorem fetchGraphQL_payload_handling {T : Type} (req : Nat → Attempt T)
    (r : JsResponse T) (tok : String) (htok : tok ≠ emptyStr)
    (hreq : req 0 = .resp r) (hok : respOk r = true) :
    (∀ es, r.payload.errors = some es → es ≠ [] →
      fetchGitHubGraphQL req (some tok) =
        .error (gqlErrorsHead ++ String.intercalate commaSep (es.map GQLErr.message))) ∧
    (errCheck r.payload = false → r.payload.data = none →
      fetchGitHubGraphQL req (some tok) = .error noDataMsg) ∧
    (∀ d, errCheck r.payload = false → r.payload.data = some d →
      fetchGitHubGraphQL req (some tok) = .ok d) := by
  have hres : (retryRequest req 3 1000).result = .ok r := by
    show (retryLoop req 3 1000 0 (2 + 1)).result = .ok r
    rw [retryLoop_first_ok req 3 1000 0 2 r hreq hok]
  refine ⟨?_, ?_, ?_⟩
  · intro es hes hne
    have hchk : errCheck r.payload = true := by
      unfold errCheck
      rw [hes]
      simpa using List.length_pos.mpr hne
    unfold fetchGitHubGraphQL
    rw [if_neg (by simpa using htok), hres]
    simp [hchk, hes]
  · intro hchk hdat
    unfold fetchGitHubGraphQL
    rw [if_neg (by simpa using htok), hres]
    simp [hchk, hdat]
  · intro d hchk hdat
    unfold fetchGitHubGraphQL
    rw [if_neg (by simpa using htok), hres]
    simp [hchk, hdat]

/-- Witness for C7: a token and an immediately successful payload carrying
data 5 yield the data value. -/
theorem fetchGraphQL_payload_handling_witness :
    tokStr ≠ emptyStr ∧ fetchGitHubGraphQL reqNat (some tokStr) = .ok 5 :=
  ⟨by decide,
    (fetchGraphQL_payload_handling reqNat respNat tokStr (by decide) rfl rfl).2.2
      5 rfl rfl⟩

/-- Claim C8: UserStatistics.totalStars is the sum of the per-repository
stargazer counts (absent counts contribute zero); repositories with stars
3, 0, 7 yield 10. -/
theorem statsGET_totalStars_sum :
    (∀ user : UserStatsData,
      (statsGET user).totalStars = (user.repositories.nodes.map starsOfStats).sum) ∧
    (statsGET statsUserEx).totalStars = 10 := by
  constructor
  · intro user
    show user.repositories.nodes.foldl (fun sum repo => sum + starsOfStats repo) 0 = _
    rw [List.sum_eq_foldl, List.foldl_map]
  · rfl

/-- Claim C6: normalization defaults stargazerCount, forkCount, and
languages per field, and the output defaultBranchRef is the nested count
wrapper exactly when the optional chain yields a number, null otherwise. -/
theorem normalizeRepo_defaults (r : RepoNode) :
    (r.stargazers = none → (normalizeRepo r).stargazerCount = 0) ∧
    (r.forkCount = none → (normalizeRepo r).forkCount = 0) ∧
    (r.languages = none → (normalizeRepo r).languages = Languages.mk 0 []) ∧
    (∀ n : Nat, chainCount r = some n ↔
      (normalizeRepo r).defaultBranchRef = some ⟨⟨⟨n⟩⟩⟩) ∧
    (chainCount r = none → (normalizeRepo r).defaultBranchRef = none) := by
  refine ⟨?_, ?_, ?_, ?_, ?_⟩
  · intro h
    simp [normalizeRepo, starsOf, h]
  · intro h
    simp [normalizeRepo, h]
  · intro h
    simp [normalizeRepo, h, emptyLanguages]
  · intro n
    constructor
    · intro h
      simp [normalizeRepo, normBranch, h]
    · intro h
      cases hc : chainCount r with
      | none => simp [normalizeRepo, normBranch, hc] at h
      | some m =>
        simp [normalizeRepo, normBranch, hc] at h
        simp [h]
  · intro h
    simp [normalizeRepo, normBranch, h]

/-- Witness for C6: a node with every optional field absent normalizes to
the documented defaults. -/
theorem normalizeRepo_defaults_witness :
    bareNode.stargazers = none ∧ (normalizeRepo bareNode).stargazerCount = 0 ∧
    (normalizeRepo bareNode).forkCount = 0 ∧
    (normalizeRepo bareNode).languages = Languages.mk 0 [] ∧
    (normalizeRepo bareNode).defaultBranchRef = none :=
  ⟨rfl, (normalizeRepo_defaults bareNode).1 rfl,
    (normalizeRepo_defaults bareNode).2.1 rfl,
    (normalizeRepo_defaults bareNode).2.2.1 rfl,
    (normalizeRepo_defaults bareNode).2.2.2.2 rfl⟩

/-- A slice of a list only contains members of the list. -/
theorem mem_of_mem_jsSlice {α : Type} {a : α} {l : List α} {k : Option Int}
    (h : a ∈ jsSlice l k) : a ∈ l := by
  cases k with
  | none => simp [jsSlice] at h
  | some k =>
    have h2 : a ∈ (if 0 ≤ k then l.take k.toNat else l.take (l.length - (-k).toNat)) := h
    split at h2
    · exact List.mem_of_mem_take h2
    · exact List.mem_of_mem_take h2

/-- A slice of a pairwise-ordered list is pairwise ordered. -/
theorem pairwise_jsSlice {α : Type} {R : α → α → Prop} {l : List α} {k : Option Int}
    (h : l.Pairwise R) : (jsSlice l k).Pairwise R := by
  cases k with
  | none => simp [jsSlice]
  | some k =>
    show (if 0 ≤ k then l.take k.toNat else l.take (l.length - (-k).toNat)).Pairwise R
    split
    · exact h.sublist (List.take_sublist _ _)
    · exact h.sublist (List.take_sublist _ _)

/-- Every member of the route's output is the normalization of a node
that survived the privacy filter. -/
theorem mem_of_mem_reposGET {g : GitHubRepository} {pages : List Page}
    {fp lp : Option String} (hg : g ∈ reposGET pages fp lp) :
    ∃ x ∈ filterPublic (fetchAllRepos pages), normalizeRepo x = g := by
  unfold reposGET at hg
  obtain ⟨x, hx, hxg⟩ := List.mem_map.mp hg
  have hx2 : x ∈ sortByStars
      (featuredArrange (parseFeatured fp) (filterPublic (fetchAllRepos pages))) :=
    mem_of_mem_jsSlice hx
  have hx3 : x ∈ featuredArrange (parseFeatured fp) (filterPublic (fetchAllRepos pages)) :=
    ((List.perm_insertionSort starsGe _).mem_iff).mp hx2
  have hx4 : x ∈ filterPublic (fetchAllRepos pages) := by
    unfold featuredArrange at hx3
    split at hx3
    · rcases List.mem_append.mp hx3 with h | h
      · exact List.mem_of_mem_filter h
      · exact List.mem_of_mem_filter h
    · exact hx3
  exact ⟨x, hx4, hxg⟩

/-- Claim C4: no private, archived, or template repository ever reaches
the output, for any upstream pages and any request parameters. -/
theorem reposGET_excludes_flagged (pages : List Page) (fp lp : Option String)
    (g : GitHubRepository) (hg : g ∈ reposGET pages fp lp) :
    g.isPrivate = false ∧ g.isArchived = false ∧ g.isTemplate = false := by
  obtain ⟨x, hx, rfl⟩ := mem_of_mem_reposGET hg
  have hk : keepPublic x = true := List.of_mem_filter hx
  unfold keepPublic at hk
  simp only [Bool.and_eq_true, Bool.not_eq_true'] at hk
  exact ⟨hk.1.1, hk.1.2, hk.2⟩

/-- Witness for C4: a public repository does appear in the output and
carries false flags. -/
theorem reposGET_excludes_flagged_witness :
    (normalizeRepo repoB).isPrivate = false ∧
    (normalizeRepo repoB).isArchived = false ∧
    (normalizeRepo repoB).isTemplate = false :=
  reposGET_excludes_flagged c4pages none none (normalizeRepo repoB) (by decide)

/-- Counterexample to claim C1 as stated: with repos A (name foo-one,
1 star), B (name barproj, 10 stars), C (name foo-two, 2 stars),
featured=foo and limit=3, the endpoint returns B, C, A — the final sort
by stars overrides the featured-first concatenation, so the non-featured
B with the most stars comes first, not [C, A, B]. -/
theorem reposGET_featured_order_cex :
    (reposGET c1pages (some fooStr) (some threeStr)).map GitHubRepository.name =
      [nameBar, nameFooTwo, nameFooOne] ∧
    ¬ (reposGET c1pages (some fooStr) (some threeStr)).map GitHubRepository.name =
      [nameFooTwo, nameFooOne, nameBar] := by
  constructor
  · rfl
  · decide

/-- Claim C1 amended: the output is ordered by star count descending for
every upstream set and every request (the stable star sort runs after and
dominates the featured-first concatenation, which can only break star
ties); in the cited example the order is therefore [B, C, A]. -/
theorem reposGET_sort_dominates :
    (∀ (pages : List Page) (fp lp : Option String),
      List.Pairwise (fun a b : GitHubRepository => b.stargazerCount ≤ a.stargazerCount)
        (reposGET pages fp lp)) ∧
    (reposGET c1pages (some fooStr) (some threeStr)).map GitHubRepository.name =
      [nameBar, nameFooTwo, nameFooOne] := by
  constructor
  · intro pages fp lp
    have hs : List.Pairwise starsGe
        (sortByStars (featuredArrange (parseFeatured fp) (filterPublic (fetchAllRepos pages)))) :=
      List.sorted_insertionSort starsGe _
    exact (pairwise_jsSlice hs).map normalizeRepo (fun a b h => h)
  · rfl

/-- Counterexample to claim C3 as stated: two pages of 99 and 2 nodes,
each reporting hasNextPage, accumulate 101 nodes — the loop only checks
the 100 cap before a fetch, so a fetch started below the cap can push the
total past it. -/
theorem reposLoop_cap_cex :
    (fetchAllRepos c3pages).length = 101 ∧
    (∀ p ∈ c3pages, p.hasNextPage = true) := by
  constructor
  · rfl
  · decide

/-- Accumulation bound for the pagination loop: starting within the
bound, the result stays within 99 + 100 nodes when every page carries at
most 100 nodes. -/
theorem reposLoop_bound_aux (pages : List Page) :
    ∀ (acc : List RepoNode) (b : Bool),
    (∀ p ∈ pages, p.nodes.length ≤ 100) → acc.length ≤ 199 →
    (reposLoop pages acc b).length ≤ 199 := by
  induction pages with
  | nil =>
    intro acc b _ ha
    cases b <;> simpa [reposLoop] using ha
  | cons p rest ih =>
    intro acc b hp ha
    cases b with
    | false => simpa [reposLoop] using ha
    | true =>
      show (if acc.length < 100 then reposLoop rest (acc ++ p.nodes) p.hasNextPage
        else acc).length ≤ 199
      by_cases hl : acc.length < 100
      · rw [if_pos hl]
        apply ih
        · intro q hq
          exact hp q (List.mem_cons_of_mem p hq)
        · have hpn : p.nodes.length ≤ 100 := hp p (List.mem_cons_self p rest)
          rw [List.length_append]
          omega
      · rw [if_neg hl]
        exact ha

/-- Claim C3 amended: no further page is fetched once 100 nodes are
accumulated, so with upstream pages of at most 100 nodes each (the query
requests pages of 100) the accumulation never exceeds 199 = 99 + 100;
the stated bound of exactly 100 does not hold. -/
theorem reposLoop_capped (pages : List Page)
    (hp : ∀ p ∈ pages, p.nodes.length ≤ 100) :
    (fetchAllRepos pages).length ≤ 199 :=
  reposLoop_bound_aux pages [] true hp (by simp)

/-- Witness for the amended C3 bound on the concrete 99 + 2 page pair. -/
theorem reposLoop_capped_witness :
    (∀ p ∈ c3pages, p.nodes.length ≤ 100) ∧ (fetchAllRepos c3pages).length ≤ 199 :=
  ⟨by decide, reposLoop_capped c3pages (by decide)⟩

/-- Every node accumulated by the pagination loop comes from the initial
accumulator or from one of the supplied pages. -/
theorem mem_of_mem_reposLoop {x : RepoNode} :
    ∀ (pages : List Page) (acc : List RepoNode) (b : Bool),
    x ∈ reposLoop pages acc b → x ∈ acc ∨ ∃ p ∈ pages, x ∈ p.nodes := by
  intro pages
  induction pages with
  | nil =>
    intro acc b h
    cases b <;> exact Or.inl (by simpa [reposLoop] using h)
  | cons p rest ih =>
    intro acc b h
    cases b with
    | false => exact Or.inl (by simpa [reposLoop] using h)
    | true =>
      rw [show reposLoop (p :: rest) acc true =
        if acc.length < 100 then reposLoop rest (acc ++ p.nodes) p.hasNextPage
        else acc from rfl] at h
      by_cases hl : acc.length < 100
      · rw [if_pos hl] at h
        rcases ih (acc ++ p.nodes) p.hasNextPage h with hin | ⟨q, hq, hxq⟩
        · rcases List.mem_append.mp hin with h1 | h2
          · exact Or.inl h1
          · exact Or.inr ⟨p, List.mem_cons_self p rest, h2⟩
        · exact Or.inr ⟨q, List.mem_cons_of_mem p hq, hxq⟩
      · rw [if_neg hl] at h
        exact Or.inl h

/-- Claim C9: when every upstream node's language breakdown (the query
requests at most 10 languages in descending size order) satisfies the
bound, every output summary's breakdown has at most 10 entries in
descending size order — the route passes breakdowns through and defaults
absent ones to the empty breakdown. -/
theorem reposGET_languages_invariant (pages : List Page) (fp lp : Option String)
    (hpages : ∀ p ∈ pages, ∀ r ∈ p.nodes, langOkOpt r.languages = true)
    (g : GitHubRepository) (hg : g ∈ reposGET pages fp lp) :
    langOkB g.languages = true := by
  obtain ⟨x, hx, rfl⟩ := mem_of_mem_reposGET hg
  have hx2 : x ∈ fetchAllRepos pages := List.mem_of_mem_filter hx
  rcases mem_of_mem_reposLoop pages [] true hx2 with h | ⟨p, hp, hxp⟩
  · simp at h
  · have hlang := hpages p hp x hxp
    show langOkB (x.languages.getD emptyLanguages) = true
    cases hL : x.languages with
    | none => decide
    | some L =>
      rw [hL] at hlang
      simpa [langOkOpt] using hlang

/-- Witness for C9: a page whose node carries a two-entry descending
breakdown flows through to an output summary satisfying the invariant. -/
theorem reposGET_languages_invariant_witness :
    (∀ p ∈ c9pages, ∀ r ∈ p.nodes, langOkOpt r.languages = true) ∧
    langOkB (normalizeRepo langNodeEx).languages = true :=
  ⟨by decide,
    reposGET_languages_invariant c9pages none none (by decide)
      (normalizeRepo langNodeEx) (by decide)⟩

/-- Counterexample to claim C10 as stated: the limit parameter present as
the empty string does not parse (parseInt would give NaN), yet the code
never reaches parseInt with it — the empty string is falsy, so the
default string 10 is parsed instead and a non-empty upstream set yields a
non-empty response, not the empty list. -/
theorem reposGET_nan_limit_cex :
    parseIntJS emptyStr = none ∧
    c4pages ≠ [] ∧
    reposGET c4pages none (some emptyStr) ≠ [] := by
  refine ⟨rfl, by decide, by decide⟩

/-- Claim C10 amended: when the limit parameter is present, non-empty,
and does not parse as an integer, the endpoint returns the empty list
(the slice to NaN keeps zero elements) for every upstream set. -/
theorem reposGET_nan_limit_empty (pages : List Page) (fp : Option String)
    (s : String) (hs : s ≠ emptyStr) (hnan : parseIntJS s = none) :
    reposGET pages fp (some s) = [] := by
  have h1 : parseLimit (some s) = none := by
    show parseIntJS (if s = emptyStr then defaultLimitStr else s) = none
    rw [if_neg hs]
    exact hnan
  unfold reposGET
  rw [h1]
  rfl

/-- Witness for the amended C10: the literal abc is non-empty, parses to
NaN, and empties the response over a non-empty upstream set. -/
theorem reposGET_nan_limit_empty_witness :
    abcStr ≠ emptyStr ∧ parseIntJS abcStr = none ∧
    reposGET c4pages none (some abcStr) = [] :=
  ⟨by decide, rfl, reposGET_nan_limit_empty c4pages none abcStr (by decide) rfl⟩

end Portfolio
